import Mathlib

/-!
Verification development for the session-scoped conversational backend
(`src/app.py`): the session/message store, the user-profile state, the
prompt-context rendering, the structured-response validation pipeline,
and the HTTP-facing operations (submit turn, profile update, history,
export).  JSON values are modelled by the `Json` inductive; Python dicts
by association lists; datetimes by an explicit record; the remote
generation service and the JSON parser are passed in as parameters.
-/

/-- JSON-like values, as produced by `json.loads` in `app.py`. -/
inductive Json where
  | null
  | bool (b : Bool)
  | num (n : Int)
  | str (s : String)
  | arr (xs : List Json)
  | obj (fields : List (String × Json))

/-- A parsed JSON object body: the `response_dict` of `query_openai`. -/
abbrev Dict := List (String × Json)

/-- The ten admissible `response_type` literals of `AssistantResponse`. -/
def responseTypes : List String :=
  ["greeting", "gathering_info", "recommendations", "budget_breakdown",
   "license_guide", "supplier_guide", "profit_projection", "action_plan",
   "general_advice", "clarification"]

/-- Is this JSON value a string? -/
def Json.isStr : Json → Bool
  | .str _ => true
  | _ => false

/-- Required `str` field of a pydantic model: present and a JSON string. -/
def checkStr (d : Dict) (k : String) : Bool :=
  match List.lookup k d with
  | some (.str _) => true
  | _ => false

/-- Required `int` field of a pydantic model: present and a JSON number. -/
def checkInt (d : Dict) (k : String) : Bool :=
  match List.lookup k d with
  | some (.num _) => true
  | _ => false

/-- Required `Literal[...]` field: present, a string, and one of `vals`. -/
def checkLit (d : Dict) (k : String) (vals : List String) : Bool :=
  match List.lookup k d with
  | some (.str s) => vals.contains s
  | _ => false

/-- Required `List[str]` field: present and an array of strings. -/
def checkReqStrList (d : Dict) (k : String) : Bool :=
  match List.lookup k d with
  | some (.arr xs) => xs.all Json.isStr
  | _ => false

/-- `Optional[str]` field: absent, null, or a string. -/
def checkOptStr (d : Dict) (k : String) : Bool :=
  match List.lookup k d with
  | none => true
  | some .null => true
  | some (.str _) => true
  | _ => false

/-- `Optional[int]` field: absent, null, or a number. -/
def checkOptInt (d : Dict) (k : String) : Bool :=
  match List.lookup k d with
  | none => true
  | some .null => true
  | some (.num _) => true
  | _ => false

/-- `Optional[List[str]]` field: absent, null, or an array of strings. -/
def checkOptStrList (d : Dict) (k : String) : Bool :=
  match List.lookup k d with
  | none => true
  | some .null => true
  | some (.arr xs) => xs.all Json.isStr
  | _ => false

/-- `Optional[List[T]]` field with record validator `p`: absent, null, or
an array whose every element satisfies `p`. -/
def checkOptListOf (d : Dict) (k : String) (p : Json → Bool) : Bool :=
  match List.lookup k d with
  | none => true
  | some .null => true
  | some (.arr xs) => xs.all p
  | _ => false

/-- The mandatory `response_type` field: a string in the ten-value
enumeration of `AssistantResponse`. -/
def checkRT (d : Dict) : Bool :=
  match List.lookup "response_type" d with
  | some (.str s) => responseTypes.contains s
  | _ => false

/-- Schema of a `FollowUpQuestion` record. -/
def validFollowUpQuestion (j : Json) : Bool :=
  match j with
  | .obj d => checkStr d "question" && checkStr d "why_asking" && checkOptStrList d "options"
  | _ => false

/-- Schema of a `BusinessRecommendation` record. -/
def validBusinessRecommendation (j : Json) : Bool :=
  match j with
  | .obj d =>
      checkStr d "name" && checkStr d "tagline" &&
      checkInt d "capital_required_low" && checkInt d "capital_required_high" &&
      checkInt d "monthly_profit_low" && checkInt d "monthly_profit_high" &&
      checkLit d "risk_level" ["low", "medium", "high"] &&
      checkLit d "time_commitment" ["part-time", "full-time", "flexible"] &&
      checkReqStrList d "skills_needed" && checkStr d "why_suitable" &&
      checkReqStrList d "quick_start_steps"
  | _ => false

/-- Schema of a `BudgetItem` record. -/
def validBudgetItem (j : Json) : Bool :=
  match j with
  | .obj d =>
      checkStr d "item" && checkStr d "description" &&
      checkInt d "cost_low" && checkInt d "cost_high" &&
      checkLit d "priority" ["essential", "recommended", "optional"]
  | _ => false

/-- Schema of a `LicenseStep` record. -/
def validLicenseStep (j : Json) : Bool :=
  match j with
  | .obj d =>
      checkInt d "step_number" && checkStr d "action" && checkStr d "where" &&
      checkStr d "cost" && checkStr d "duration"
  | _ => false

/-- Schema of a `License` record (with its nested steps). -/
def validLicense (j : Json) : Bool :=
  match j with
  | .obj d =>
      checkStr d "name" && checkStr d "authority" && checkStr d "total_cost" &&
      checkStr d "processing_time" &&
      (match List.lookup "steps" d with
       | some (.arr xs) => xs.all validLicenseStep
       | _ => false)
  | _ => false

/-- Schema of a `Supplier` record. -/
def validSupplier (j : Json) : Bool :=
  match j with
  | .obj d =>
      checkStr d "name" && checkStr d "location" && checkStr d "what_to_buy" &&
      checkStr d "price_range" && checkStr d "tips"
  | _ => false

/-- Schema of a `MonthlyProjection` record. -/
def validMonthlyProjection (j : Json) : Bool :=
  match j with
  | .obj d =>
      checkInt d "month" && checkInt d "revenue" && checkInt d "expenses" &&
      checkInt d "profit" && checkStr d "notes"
  | _ => false

/-- Schema of an `ActionStep` record. -/
def validActionStep (j : Json) : Bool :=
  match j with
  | .obj d =>
      checkStr d "week" && checkStr d "title" && checkReqStrList d "tasks" &&
      checkStr d "estimated_cost"
  | _ => false

/-- Whole-model validation of `AssistantResponse(**response_dict)`:
pydantic accepts the dict exactly when every declared field validates
(extra keys are ignored). -/
def arValid (d : Dict) : Bool :=
  checkStr d "message" && checkRT d &&
  checkOptListOf d "follow_up_questions" validFollowUpQuestion &&
  checkOptListOf d "business_recommendations" validBusinessRecommendation &&
  checkOptListOf d "budget_items" validBudgetItem &&
  checkOptInt d "budget_total_low" && checkOptInt d "budget_total_high" &&
  checkOptListOf d "licenses" validLicense &&
  checkOptListOf d "suppliers" validSupplier &&
  checkOptListOf d "monthly_projections" validMonthlyProjection &&
  checkOptListOf d "action_steps" validActionStep &&
  checkOptStr d "user_profile_summary" && checkOptStr d "next_suggested_topic"

/-- String value of field `k`, defaulting to the empty string. -/
def getStrD (d : Dict) (k : String) : String :=
  match List.lookup k d with
  | some (.str s) => s
  | _ => ""

/-- Dump of an `Optional[str]` field: the string or `null`. -/
def dumpOptStr (d : Dict) (k : String) : Json :=
  match List.lookup k d with
  | some (.str s) => .str s
  | _ => .null

/-- Dump of an `Optional[int]` field: the number or `null`. -/
def dumpOptInt (d : Dict) (k : String) : Json :=
  match List.lookup k d with
  | some (.num n) => .num n
  | _ => .null

/-- Dump of a required `int` record field. -/
def dumpInt (d : Dict) (k : String) : Json :=
  match List.lookup k d with
  | some (.num n) => .num n
  | _ => .num 0

/-- Dump of a `List[str]` or `Optional[List[str]]` record field. -/
def dumpStrList (d : Dict) (k : String) : Json :=
  match List.lookup k d with
  | some (.arr xs) => .arr xs
  | _ => .null

/-- Dump of an optional list field, re-dumping each record with `f`. -/
def dumpListOf (d : Dict) (k : String) (f : Json → Json) : Json :=
  match List.lookup k d with
  | some (.arr xs) => .arr (xs.map f)
  | _ => .null

/-- `model_dump` of a validated `FollowUpQuestion`. -/
def dumpFollowUpQuestion (j : Json) : Json :=
  match j with
  | .obj d =>
      .obj [("question", .str (getStrD d "question")),
            ("why_asking", .str (getStrD d "why_asking")),
            ("options", dumpStrList d "options")]
  | _ => .null

/-- `model_dump` of a validated `BusinessRecommendation`. -/
def dumpBusinessRecommendation (j : Json) : Json :=
  match j with
  | .obj d =>
      .obj [("name", .str (getStrD d "name")),
            ("tagline", .str (getStrD d "tagline")),
            ("capital_required_low", dumpInt d "capital_required_low"),
            ("capital_required_high", dumpInt d "capital_required_high"),
            ("monthly_profit_low", dumpInt d "monthly_profit_low"),
            ("monthly_profit_high", dumpInt d "monthly_profit_high"),
            ("risk_level", .str (getStrD d "risk_level")),
            ("time_commitment", .str (getStrD d "time_commitment")),
            ("skills_needed", dumpStrList d "skills_needed"),
            ("why_suitable", .str (getStrD d "why_suitable")),
            ("quick_start_steps", dumpStrList d "quick_start_steps")]
  | _ => .null

/-- `model_dump` of a validated `BudgetItem`. -/
def dumpBudgetItem (j : Json) : Json :=
  match j with
  | .obj d =>
      .obj [("item", .str (getStrD d "item")),
            ("description", .str (getStrD d "description")),
            ("cost_low", dumpInt d "cost_low"),
            ("cost_high", dumpInt d "cost_high"),
            ("priority", .str (getStrD d "priority"))]
  | _ => .null

/-- `model_dump` of a validated `LicenseStep`. -/
def dumpLicenseStep (j : Json) : Json :=
  match j with
  | .obj d =>
      .obj [("step_number", dumpInt d "step_number"),
            ("action", .str (getStrD d "action")),
            ("where", .str (getStrD d "where")),
            ("cost", .str (getStrD d "cost")),
            ("duration", .str (getStrD d "duration"))]
  | _ => .null

/-- `model_dump` of a validated `License`. -/
def dumpLicense (j : Json) : Json :=
  match j with
  | .obj d =>
      .obj [("name", .str (getStrD d "name")),
            ("authority", .str (getStrD d "authority")),
            ("total_cost", .str (getStrD d "total_cost")),
            ("processing_time", .str (getStrD d "processing_time")),
            ("steps",
             match List.lookup "steps" d with
             | some (.arr xs) => .arr (xs.map dumpLicenseStep)
             | _ => .arr [])]
  | _ => .null

/-- `model_dump` of a validated `Supplier`. -/
def dumpSupplier (j : Json) : Json :=
  match j with
  | .obj d =>
      .obj [("name", .str (getStrD d "name")),
            ("location", .str (getStrD d "location")),
            ("what_to_buy", .str (getStrD d "what_to_buy")),
            ("price_range", .str (getStrD d "price_range")),
            ("tips", .str (getStrD d "tips"))]
  | _ => .null

/-- `model_dump` of a validated `MonthlyProjection`. -/
def dumpMonthlyProjection (j : Json) : Json :=
  match j with
  | .obj d =>
      .obj [("month", dumpInt d "month"),
            ("revenue", dumpInt d "revenue"),
            ("expenses", dumpInt d "expenses"),
            ("profit", dumpInt d "profit"),
            ("notes", .str (getStrD d "notes"))]
  | _ => .null

/-- `model_dump` of a validated `ActionStep`. -/
def dumpActionStep (j : Json) : Json :=
  match j with
  | .obj d =>
      .obj [("week", .str (getStrD d "week")),
            ("title", .str (getStrD d "title")),
            ("tasks", dumpStrList d "tasks"),
            ("estimated_cost", .str (getStrD d "estimated_cost"))]
  | _ => .null

/-- `validated_response.model_dump()`: the normalized dict produced from a
dict accepted by `AssistantResponse`, with every declared field present
(absent optional fields become `null`). -/
def dumpAR (d : Dict) : Dict :=
  [("message", .str (getStrD d "message")),
   ("response_type", .str (getStrD d "response_type")),
   ("follow_up_questions", dumpListOf d "follow_up_questions" dumpFollowUpQuestion),
   ("business_recommendations", dumpListOf d "business_recommendations" dumpBusinessRecommendation),
   ("budget_items", dumpListOf d "budget_items" dumpBudgetItem),
   ("budget_total_low", dumpOptInt d "budget_total_low"),
   ("budget_total_high", dumpOptInt d "budget_total_high"),
   ("licenses", dumpListOf d "licenses" dumpLicense),
   ("suppliers", dumpListOf d "suppliers" dumpSupplier),
   ("monthly_projections", dumpListOf d "monthly_projections" dumpMonthlyProjection),
   ("action_steps", dumpListOf d "action_steps" dumpActionStep),
   ("user_profile_summary", dumpOptStr d "user_profile_summary"),
   ("next_suggested_topic", dumpOptStr d "next_suggested_topic")]

/-- The validation step of `query_openai` applied to a parsed dict
`rd` (with `raw` the raw collaborator text): try pydantic validation; on
success use the normalized dump, on failure keep `rd` unvalidated,
inserting `message := raw` only when the key is absent. -/
def processParsed (raw : String) (rd : Dict) : Dict :=
  if arValid rd then dumpAR rd
  else if (List.lookup "message" rd).isSome then rd
  else rd ++ [("message", Json.str raw)]

/-- The parse-then-validate pipeline of `query_openai` on the raw
collaborator text: `parsed` is the result of `json.loads` (`none` on a
`JSONDecodeError`), in which case the fallback dict is used. -/
def query_pipeline (raw : String) (parsed : Option Dict) : Dict :=
  processParsed raw
    (match parsed with
     | some d => d
     | none => [("message", Json.str raw), ("response_type", Json.str "general_advice")])

/-- A `UserProfile` row: nullable text columns plus the conversation
stage (column default `"discovery"`). -/
structure Profile where
  capital_available : Option String
  location_county : Option String
  location_type : Option String
  time_commitment : Option String
  skills : Option String
  interests : Option String
  risk_tolerance : Option String
  selected_business : Option String
  conversation_stage : String
deriving DecidableEq, Repr

/-- A freshly created `UserProfile(session_id=...)` row. -/
def defaultProfile : Profile :=
  ⟨none, none, none, none, none, none, none, none, "discovery"⟩

/-- The `updatable_fields` list of `update_profile`. -/
def updatableFields : List String :=
  ["capital_available", "location_county", "location_type",
   "time_commitment", "skills", "interests", "risk_tolerance",
   "selected_business", "conversation_stage"]

/-- `setattr(profile, f, v)` for the recognized column names. -/
def setField (p : Profile) (f v : String) : Profile :=
  if f = "capital_available" then { p with capital_available := some v }
  else if f = "location_county" then { p with location_county := some v }
  else if f = "location_type" then { p with location_type := some v }
  else if f = "time_commitment" then { p with time_commitment := some v }
  else if f = "skills" then { p with skills := some v }
  else if f = "interests" then { p with interests := some v }
  else if f = "risk_tolerance" then { p with risk_tolerance := some v }
  else if f = "selected_business" then { p with selected_business := some v }
  else if f = "conversation_stage" then { p with conversation_stage := v }
  else p

/-- One iteration of the update loop: `if field in data: setattr(...)`. -/
def applyField (data : List (String × String)) (p : Profile) (f : String) : Profile :=
  match List.lookup f data with
  | some v => setField p f v
  | none => p

/-- The field-update loop of `update_profile`: for each recognized field
present in `data`, overwrite the stored value. -/
def updateProfileFields (p : Profile) (data : List (String × String)) : Profile :=
  updatableFields.foldl (applyField data) p

/-- Outcome of the profile-update endpoint. -/
inductive UpdateResult where
  | ok
  | badRequest (msg : String)
deriving DecidableEq, Repr

/-- Upsert of the single profile row for `sid` in the profiles table. -/
def setProfileStore (ps : List (String × Profile)) (sid : String) (p : Profile) :
    List (String × Profile) :=
  if (List.lookup sid ps).isSome then
    ps.map (fun q => if q.1 = sid then (sid, p) else q)
  else ps ++ [(sid, p)]

/-- The `POST /api/profile` endpoint (`update_profile` in `app.py`):
require a truthy `session_id`, get or create the row, then apply the
recognized fields present in the request body. -/
def update_profile (ps : List (String × Profile)) (data : List (String × String)) :
    List (String × Profile) × UpdateResult :=
  match List.lookup "session_id" data with
  | none => (ps, .badRequest "Missing session_id")
  | some sid =>
      if sid = "" then (ps, .badRequest "Missing session_id")
      else
        (setProfileStore ps sid (updateProfileFields ((List.lookup sid ps).getD defaultProfile) data),
         .ok)

/-- `x or 'Unknown'` on a nullable text column: `None` and the empty
string are falsy in Python. -/
def orUnknown (o : Option String) : String :=
  match o with
  | none => "Unknown"
  | some s => if s = "" then "Unknown" else s

/-- `profile.selected_business or 'None yet'`. -/
def orNoneYet (o : Option String) : String :=
  match o with
  | none => "None yet"
  | some s => if s = "" then "None yet" else s

/-- The lines of the `profile_context` f-string interpolated into the
system message by `query_openai` (the f-string begins and ends with a
newline, hence the empty first and last lines). -/
def profileLines (p : Profile) : List String :=
  ["",
   "## CURRENT USER PROFILE",
   "- Capital: " ++ orUnknown p.capital_available,
   "- Location: " ++ orUnknown p.location_county ++ " (" ++ orUnknown p.location_type ++ ")",
   "- Time: " ++ orUnknown p.time_commitment,
   "- Skills: " ++ orUnknown p.skills,
   "- Interests: " ++ orUnknown p.interests,
   "- Risk Tolerance: " ++ orUnknown p.risk_tolerance,
   "- Selected Business: " ++ orNoneYet p.selected_business,
   "- Conversation Stage: " ++ p.conversation_stage,
   ""]

/-- The `profile_context` block appended to the system message. -/
def profileContext (p : Profile) : String :=
  String.intercalate "\n" (profileLines p)

/-- A UTC instant, to the precision the code renders and compares. -/
structure DateTime where
  year : Nat
  month : Nat
  day : Nat
  hour : Nat
  minute : Nat
deriving DecidableEq, Repr

/-- Two-digit zero padding used by `strftime`. -/
def pad2 (n : Nat) : String :=
  if n < 10 then "0" ++ toString n else toString n

/-- `strftime('%H:%M')`. -/
def DateTime.fmtHM (t : DateTime) : String :=
  pad2 t.hour ++ ":" ++ pad2 t.minute

/-- `strftime('%Y-%m-%d %H:%M')`. -/
def DateTime.fmtYMDHM (t : DateTime) : String :=
  toString t.year ++ "-" ++ pad2 t.month ++ "-" ++ pad2 t.day ++ " " ++ t.fmtHM

/-- Chronological sort key of an instant. -/
def DateTime.key (t : DateTime) : Nat :=
  (((t.year * 12 + t.month) * 31 + t.day) * 24 + t.hour) * 60 + t.minute

/-- A `ChatMessage` row. -/
structure StoredMsg where
  session_id : String
  role : String
  content : String
  structured_data : Option Json
  timestamp : DateTime

/-- `ORDER BY timestamp` comparison on message rows. -/
def msgLe (a b : StoredMsg) : Prop := a.timestamp.key ≤ b.timestamp.key

instance : DecidableRel msgLe := fun a b => Nat.decLe a.timestamp.key b.timestamp.key

/-- The history query of `app.py`:
`ChatMessage.query.filter_by(session_id=...).order_by(ChatMessage.timestamp)`,
with ties resolved stably in insertion order. -/
def get_history (st : List StoredMsg) (sid : String) : List StoredMsg :=
  List.insertionSort msgLe (st.filter (fun m => m.session_id == sid))

/-- `x or 'Not specified'` in the export profile header. -/
def orNotSpecified (o : Option String) : String :=
  match o with
  | none => "Not specified"
  | some s => if s = "" then "Not specified" else s

/-- `x or 'Not selected'` in the export profile header. -/
def orNotSelected (o : Option String) : String :=
  match o with
  | none => "Not selected"
  | some s => if s = "" then "Not selected" else s

/-- `c * n` string repetition. -/
def repeatChar (n : Nat) (c : Char) : String :=
  String.mk (List.replicate n c)

/-- The `export_lines` list built by `export_session`, given the ordered
history, the optional profile row, and the current instant
(`datetime.utcnow()` at the moment the export runs). -/
def exportLines (history : List StoredMsg) (profile : Option Profile) (now : DateTime) :
    List String :=
  [repeatChar 50 '=',
   "BIASHARA BUDDY - BUSINESS CONSULTATION EXPORT",
   repeatChar 50 '=',
   "Generated: " ++ now.fmtYMDHM ++ " UTC",
   ""] ++
  (match profile with
   | some p =>
       ["USER PROFILE:",
        "  Capital: " ++ orNotSpecified p.capital_available,
        "  Location: " ++ orNotSpecified p.location_county,
        "  Selected Business: " ++ orNotSelected p.selected_business,
        ""]
   | none => []) ++
  ["CONVERSATION:", repeatChar 50 '-'] ++
  history.flatMap (fun m =>
    ["\n[" ++ (if m.role = "user" then "YOU" else "BIASHARA BUDDY") ++ "] (" ++
       m.timestamp.fmtHM ++ ")",
     m.content])

/-- The `POST /api/export` endpoint (`export_session` in `app.py`). -/
def export_session (st : List StoredMsg) (ps : List (String × Profile))
    (sid : Option String) (now : DateTime) : Except (Nat × String) String :=
  match sid with
  | none => .error (400, "Missing session_id")
  | some s =>
      if s = "" then .error (400, "Missing session_id")
      else
        let history := get_history st s
        if history.isEmpty then .error (404, "No messages found")
        else .ok (String.intercalate "\n" (exportLines history (List.lookup s ps) now))

/-- The whitespace set of Python `str.strip()` (characters whose Unicode
properties make `str.isspace()` true). -/
def pyIsSpace (c : Char) : Bool :=
  c ∈ ['\t', '\n', '\x0b', '\x0c', '\r', '\x1c', '\x1d', '\x1e', '\x1f', ' ',
       '\x85', '\xa0', '\u1680', '\u2000', '\u2001', '\u2002', '\u2003',
       '\u2004', '\u2005', '\u2006', '\u2007', '\u2008', '\u2009', '\u200a',
       '\u2028', '\u2029', '\u202f', '\u205f', '\u3000']

/-- Python `str.strip()`: drop leading and trailing whitespace. -/
def pyStrip (s : String) : String :=
  String.mk (((s.data.dropWhile pyIsSpace).reverse.dropWhile pyIsSpace).reverse)

/-- One role/content entry of the prompt payload sent to the collaborator. -/
structure RoleContent where
  role : String
  content : String

/-- The durable state behind the endpoints: the messages table and the
profiles table. -/
structure AppState where
  messages : List StoredMsg
  profiles : List (String × Profile)

/-- Lazy profile creation in `query_openai`: add a default row for the
session when none exists. -/
def ensureProfile (ps : List (String × Profile)) (sid : String) : List (String × Profile) :=
  match List.lookup sid ps with
  | some _ => ps
  | none => ps ++ [(sid, defaultProfile)]

/-- The profile row used by the request after `ensureProfile`. -/
def getProfile (ps : List (String × Profile)) (sid : String) : Profile :=
  (List.lookup sid ps).getD defaultProfile

/-- The `message` value stored as the assistant row content:
`response_dict.get("message", "")`. -/
def contentOf (rd : Dict) : String :=
  match List.lookup "message" rd with
  | some (.str s) => s
  | _ => ""

/-- The compact profile snapshot returned next to the response. -/
def profileSnapshot (p : Profile) : Dict :=
  [("stage", .str p.conversation_stage),
   ("capital", match p.capital_available with | some s => .str s | none => .null),
   ("location", match p.location_county with | some s => .str s | none => .null),
   ("selected_business", match p.selected_business with | some s => .str s | none => .null)]

/-- The `POST /api/query` endpoint (`query_openai` in `app.py`).
`sysContent` is the static `SYSTEM_MESSAGE` content; `collab` is the
remote generation call (running it on the assembled prompt yields the
raw text, or a transport error that the catch-all handler turns into a
500 response); `parse` is `json.loads`; `tUser`/`tAsst` are the
`utcnow` insertion timestamps of the two rows.  Returns the state after
the request and either an error status or the response body. -/
def submit_turn (st : AppState) (sysContent : String) (sid : Option String)
    (message : Option String) (tUser tAsst : DateTime)
    (collab : List RoleContent → Except String String)
    (parse : String → Option Dict) :
    AppState × Except (Nat × String) (Dict × Dict) :=
  let userMessage := pyStrip (message.getD "")
  match sid with
  | none => (st, .error (400, "Missing message or session_id"))
  | some s =>
      if userMessage = "" ∨ s = "" then
        (st, .error (400, "Missing message or session_id"))
      else
        let msgs1 := st.messages ++ [⟨s, "user", userMessage, none, tUser⟩]
        let profs := ensureProfile st.profiles s
        let prof := getProfile profs s
        let history := get_history msgs1 s
        let prompt := ⟨"system", sysContent ++ profileContext prof⟩ ::
          history.map (fun m => RoleContent.mk m.role m.content)
        match collab prompt with
        | .error e =>
            (⟨msgs1, profs⟩, .error (500, "Failed to process request: " ++ e))
        | .ok raw =>
            let rd := query_pipeline raw (parse raw)
            (⟨msgs1 ++ [⟨s, "assistant", contentOf rd, some (.obj rd), tAsst⟩], profs⟩,
             .ok (rd, profileSnapshot prof))

/-- A well-formed `BudgetItem` object used in concrete test inputs. -/
def exGoodItem : Json :=
  .obj [("item", .str "Rent"), ("description", .str "Shop rent"),
        ("cost_low", .num 5000), ("cost_high", .num 10000),
        ("priority", .str "essential")]

/-- A `BudgetItem` object missing its required `cost_low` field. -/
def exBadItem : Json :=
  .obj [("item", .str "Stock"), ("description", .str "Initial stock"),
        ("cost_high", .num 20000), ("priority", .str "essential")]

/-- A parsed response whose `budget_items` list contains one valid and
one invalid entry. -/
def exC2Dict : Dict :=
  [("message", .str "Here is your budget"),
   ("response_type", .str "budget_breakdown"),
   ("budget_items", .arr [exGoodItem, exBadItem])]

/-- A small message store covering two sessions, appended in timestamp
order. -/
def exMsgs : List StoredMsg :=
  [⟨"s1", "user", "hello", none, ⟨2025, 1, 1, 9, 0⟩⟩,
   ⟨"s2", "user", "hi", none, ⟨2025, 1, 1, 9, 1⟩⟩,
   ⟨"s1", "assistant", "Karibu!", none, ⟨2025, 1, 1, 9, 2⟩⟩]

/-- If pydantic validation fails and `message` is present, the except
branch of `query_openai` returns the dict unchanged. -/
lemma processParsed_of_invalid (raw : String) (rd : Dict)
    (h1 : arValid rd = false) (h2 : (List.lookup "message" rd).isSome) :
    processParsed raw rd = rd := by
  simp [processParsed, h1, h2]

/-- A failing `response_type` check makes whole-model validation fail. -/
lemma arValid_false_of_checkRT (rd : Dict) (h : checkRT rd = false) :
    arValid rd = false := by
  simp [arValid, h]

/-- A single invalid `budget_items` entry makes whole-model validation
fail. -/
lemma arValid_false_of_bad_budget_item (rd : Dict) (items : List Json) (j : Json)
    (hl : List.lookup "budget_items" rd = some (Json.arr items))
    (hj : j ∈ items) (hbad : validBudgetItem j = false) :
    arValid rd = false := by
  have hall : items.all validBudgetItem = false := by
    cases hcase : items.all validBudgetItem with
    | false => rfl
    | true => exact absurd (List.all_eq_true.mp hcase j hj) (by simp [hbad])
  have hopt : checkOptListOf rd "budget_items" validBudgetItem = false := by
    simp [checkOptListOf, hl, hall]
  simp [arValid, hopt]

/-- C1: for a parsed JSON object with a `message` field but a missing or
invalid `response_type`, the pipeline does not substitute
`general_advice`: pydantic validation fails and the dict is returned to
the caller unchanged, keeping its original (missing or invalid) tag. -/
theorem c1_invalid_tag_kept_unvalidated (raw : String) (rd : Dict)
    (hrt : checkRT rd = false) (hm : (List.lookup "message" rd).isSome) :
    processParsed raw rd = rd :=
  processParsed_of_invalid raw rd (arValid_false_of_checkRT rd hrt) hm

theorem c1_invalid_tag_kept_unvalidated_witness :
    checkRT [("message", Json.str "hi")] = false ∧
    (List.lookup "message" ([("message", Json.str "hi")] : Dict)).isSome = true ∧
    processParsed "x" [("message", Json.str "hi")] = [("message", Json.str "hi")] :=
  ⟨rfl, rfl, c1_invalid_tag_kept_unvalidated "x" [("message", Json.str "hi")] rfl rfl⟩

/-- C1 counterexample: on the parsed object with only a `message` field,
the returned dict still has no `response_type` at all, so the claimed
`general_advice` substitution does not happen. -/
theorem c1_counterexample :
    List.lookup "response_type" (query_pipeline "x" (some [("message", Json.str "hi")])) = none ∧
    List.lookup "message" (query_pipeline "x" (some [("message", Json.str "hi")])) =
      some (Json.str "hi") :=
  ⟨rfl, rfl⟩

/-- C2: when one `budget_items` entry fails its record schema, nothing is
dropped: the whole pydantic validation fails and the entire unvalidated
dict, including the failing entry, is returned. -/
theorem c2_invalid_substructure_kept (raw : String) (rd : Dict) (items : List Json) (j : Json)
    (hl : List.lookup "budget_items" rd = some (Json.arr items))
    (hj : j ∈ items) (hbad : validBudgetItem j = false)
    (hm : (List.lookup "message" rd).isSome) :
    processParsed raw rd = rd :=
  processParsed_of_invalid raw rd
    (arValid_false_of_bad_budget_item rd items j hl hj hbad) hm

theorem c2_invalid_substructure_kept_witness :
    List.lookup "budget_items" exC2Dict = some (Json.arr [exGoodItem, exBadItem]) ∧
    validBudgetItem exBadItem = false ∧
    processParsed "r" exC2Dict = exC2Dict :=
  ⟨rfl, rfl,
   c2_invalid_substructure_kept "r" exC2Dict [exGoodItem, exBadItem] exBadItem rfl
     (by simp) rfl rfl⟩

/-- C2 counterexample: with one valid and one invalid budget entry, the
result still carries both entries, not the valid one alone as the claim
predicts. -/
theorem c2_counterexample :
    (query_pipeline "r" (some exC2Dict)) = exC2Dict ∧
    List.lookup "budget_items" exC2Dict = some (Json.arr [exGoodItem, exBadItem]) ∧
    Json.arr [exGoodItem, exBadItem] ≠ Json.arr [exGoodItem] := by
  refine ⟨rfl, rfl, ?_⟩
  intro h
  injection h with h1
  simp at h1

/-- C4: when the raw collaborator text fails the JSON parse, the pipeline
returns the fallback response: `message` is the raw text verbatim,
`response_type` is `general_advice`, and every optional substructure is
null. -/
theorem c4_parse_failure_fallback (raw : String) :
    query_pipeline raw none =
      [("message", .str raw),
       ("response_type", .str "general_advice"),
       ("follow_up_questions", .null),
       ("business_recommendations", .null),
       ("budget_items", .null),
       ("budget_total_low", .null),
       ("budget_total_high", .null),
       ("licenses", .null),
       ("suppliers", .null),
       ("monthly_projections", .null),
       ("action_steps", .null),
       ("user_profile_summary", .null),
       ("next_suggested_topic", .null)] :=
  rfl



/-- `applyField` for a different column name leaves `capital_available` unchanged. -/
lemma applyField_capital_available_of_ne (data : List (String × String)) (p : Profile) (f : String)
    (hf : f ≠ "capital_available") :
    (applyField data p f).capital_available = p.capital_available := by
  unfold applyField
  cases List.lookup f data with
  | none => rfl
  | some v =>
      unfold setField
      split_ifs <;> simp_all

/-- `applyField` for the own column name of `capital_available`. -/
lemma applyField_capital_available_self (data : List (String × String)) (p : Profile) :
    (applyField data p "capital_available").capital_available =
      (List.lookup "capital_available" data).elim p.capital_available some := by
  unfold applyField
  cases List.lookup "capital_available" data with
  | none => rfl
  | some v => simp [setField]

/-- `applyField` for a different column name leaves `location_county` unchanged. -/
lemma applyField_location_county_of_ne (data : List (String × String)) (p : Profile) (f : String)
    (hf : f ≠ "location_county") :
    (applyField data p f).location_county = p.location_county := by
  unfold applyField
  cases List.lookup f data with
  | none => rfl
  | some v =>
      unfold setField
      split_ifs <;> simp_all

/-- `applyField` for the own column name of `location_county`. -/
lemma applyField_location_county_self (data : List (String × String)) (p : Profile) :
    (applyField data p "location_county").location_county =
      (List.lookup "location_county" data).elim p.location_county some := by
  unfold applyField
  cases List.lookup "location_county" data with
  | none => rfl
  | some v => simp [setField]

/-- `applyField` for a different column name leaves `location_type` unchanged. -/
lemma applyField_location_type_of_ne (data : List (String × String)) (p : Profile) (f : String)
    (hf : f ≠ "location_type") :
    (applyField data p f).location_type = p.location_type := by
  unfold applyField
  cases List.lookup f data with
  | none => rfl
  | some v =>
      unfold setField
      split_ifs <;> simp_all

/-- `applyField` for the own column name of `location_type`. -/
lemma applyField_location_type_self (data : List (String × String)) (p : Profile) :
    (applyField data p "location_type").location_type =
      (List.lookup "location_type" data).elim p.location_type some := by
  unfold applyField
  cases List.lookup "location_type" data with
  | none => rfl
  | some v => simp [setField]

/-- `applyField` for a different column name leaves `time_commitment` unchanged. -/
lemma applyField_time_commitment_of_ne (data : List (String × String)) (p : Profile) (f : String)
    (hf : f ≠ "time_commitment") :
    (applyField data p f).time_commitment = p.time_commitment := by
  unfold applyField
  cases List.lookup f data with
  | none => rfl
  | some v =>
      unfold setField
      split_ifs <;> simp_all

/-- `applyField` for the own column name of `time_commitment`. -/
lemma applyField_time_commitment_self (data : List (String × String)) (p : Profile) :
    (applyField data p "time_commitment").time_commitment =
      (List.lookup "time_commitment" data).elim p.time_commitment some := by
  unfold applyField
  cases List.lookup "time_commitment" data with
  | none => rfl
  | some v => simp [setField]

/-- `applyField` for a different column name leaves `skills` unchanged. -/
lemma applyField_skills_of_ne (data : List (String × String)) (p : Profile) (f : String)
    (hf : f ≠ "skills") :
    (applyField data p f).skills = p.skills := by
  unfold applyField
  cases List.lookup f data with
  | none => rfl
  | some v =>
      unfold setField
      split_ifs <;> simp_all

/-- `applyField` for the own column name of `skills`. -/
lemma applyField_skills_self (data : List (String × String)) (p : Profile) :
    (applyField data p "skills").skills =
      (List.lookup "skills" data).elim p.skills some := by
  unfold applyField
  cases List.lookup "skills" data with
  | none => rfl
  | some v => simp [setField]

/-- `applyField` for a different column name leaves `interests` unchanged. -/
lemma applyField_interests_of_ne (data : List (String × String)) (p : Profile) (f : String)
    (hf : f ≠ "interests") :
    (applyField data p f).interests = p.interests := by
  unfold applyField
  cases List.lookup f data with
  | none => rfl
  | some v =>
      unfold setField
      split_ifs <;> simp_all

/-- `applyField` for the own column name of `interests`. -/
lemma applyField_interests_self (data : List (String × String)) (p : Profile) :
    (applyField data p "interests").interests =
      (List.lookup "interests" data).elim p.interests some := by
  unfold applyField
  cases List.lookup "interests" data with
  | none => rfl
  | some v => simp [setField]

/-- `applyField` for a different column name leaves `risk_tolerance` unchanged. -/
lemma applyField_risk_tolerance_of_ne (data : List (String × String)) (p : Profile) (f : String)
    (hf : f ≠ "risk_tolerance") :
    (applyField data p f).risk_tolerance = p.risk_tolerance := by
  unfold applyField
  cases List.lookup f data with
  | none => rfl
  | some v =>
      unfold setField
      split_ifs <;> simp_all

/-- `applyField` for the own column name of `risk_tolerance`. -/
lemma applyField_risk_tolerance_self (data : List (String × String)) (p : Profile) :
    (applyField data p "risk_tolerance").risk_tolerance =
      (List.lookup "risk_tolerance" data).elim p.risk_tolerance some := by
  unfold applyField
  cases List.lookup "risk_tolerance" data with
  | none => rfl
  | some v => simp [setField]

/-- `applyField` for a different column name leaves `selected_business` unchanged. -/
lemma applyField_selected_business_of_ne (data : List (String × String)) (p : Profile) (f : String)
    (hf : f ≠ "selected_business") :
    (applyField data p f).selected_business = p.selected_business := by
  unfold applyField
  cases List.lookup f data with
  | none => rfl
  | some v =>
      unfold setField
      split_ifs <;> simp_all

/-- `applyField` for the own column name of `selected_business`. -/
lemma applyField_selected_business_self (data : List (String × String)) (p : Profile) :
    (applyField data p "selected_business").selected_business =
      (List.lookup "selected_business" data).elim p.selected_business some := by
  unfold applyField
  cases List.lookup "selected_business" data with
  | none => rfl
  | some v => simp [setField]

/-- `applyField` for a different column name leaves `conversation_stage` unchanged. -/
lemma applyField_conversation_stage_of_ne (data : List (String × String)) (p : Profile) (f : String)
    (hf : f ≠ "conversation_stage") :
    (applyField data p f).conversation_stage = p.conversation_stage := by
  unfold applyField
  cases List.lookup f data with
  | none => rfl
  | some v =>
      unfold setField
      split_ifs <;> simp_all

/-- `applyField` for the own column name of `conversation_stage`. -/
lemma applyField_conversation_stage_self (data : List (String × String)) (p : Profile) :
    (applyField data p "conversation_stage").conversation_stage =
      (List.lookup "conversation_stage" data).elim p.conversation_stage id := by
  unfold applyField
  cases List.lookup "conversation_stage" data with
  | none => rfl
  | some v => simp [setField]

/-- The update loop overwrites `capital_available` exactly when the field is present. -/
lemma updateFields_capital_available (p : Profile) (data : List (String × String)) :
    (updateProfileFields p data).capital_available =
      (List.lookup "capital_available" data).elim p.capital_available some := by
  unfold updateProfileFields updatableFields
  simp only [List.foldl_cons, List.foldl_nil]
  rw [applyField_capital_available_of_ne _ _ _ (show ("conversation_stage" : String) ≠ "capital_available" by decide)]
  rw [applyField_capital_available_of_ne _ _ _ (show ("selected_business" : String) ≠ "capital_available" by decide)]
  rw [applyField_capital_available_of_ne _ _ _ (show ("risk_tolerance" : String) ≠ "capital_available" by decide)]
  rw [applyField_capital_available_of_ne _ _ _ (show ("interests" : String) ≠ "capital_available" by decide)]
  rw [applyField_capital_available_of_ne _ _ _ (show ("skills" : String) ≠ "capital_available" by decide)]
  rw [applyField_capital_available_of_ne _ _ _ (show ("time_commitment" : String) ≠ "capital_available" by decide)]
  rw [applyField_capital_available_of_ne _ _ _ (show ("location_type" : String) ≠ "capital_available" by decide)]
  rw [applyField_capital_available_of_ne _ _ _ (show ("location_county" : String) ≠ "capital_available" by decide)]
  rw [applyField_capital_available_self]

/-- The update loop overwrites `location_county` exactly when the field is present. -/
lemma updateFields_location_county (p : Profile) (data : List (String × String)) :
    (updateProfileFields p data).location_county =
      (List.lookup "location_county" data).elim p.location_county some := by
  unfold updateProfileFields updatableFields
  simp only [List.foldl_cons, List.foldl_nil]
  rw [applyField_location_county_of_ne _ _ _ (show ("conversation_stage" : String) ≠ "location_county" by decide)]
  rw [applyField_location_county_of_ne _ _ _ (show ("selected_business" : String) ≠ "location_county" by decide)]
  rw [applyField_location_county_of_ne _ _ _ (show ("risk_tolerance" : String) ≠ "location_county" by decide)]
  rw [applyField_location_county_of_ne _ _ _ (show ("interests" : String) ≠ "location_county" by decide)]
  rw [applyField_location_county_of_ne _ _ _ (show ("skills" : String) ≠ "location_county" by decide)]
  rw [applyField_location_county_of_ne _ _ _ (show ("time_commitment" : String) ≠ "location_county" by decide)]
  rw [applyField_location_county_of_ne _ _ _ (show ("location_type" : String) ≠ "location_county" by decide)]
  rw [applyField_location_county_self]
  rw [applyField_location_county_of_ne _ _ _ (show ("capital_available" : String) ≠ "location_county" by decide)]

/-- The update loop overwrites `location_type` exactly when the field is present. -/
lemma updateFields_location_type (p : Profile) (data : List (String × String)) :
    (updateProfileFields p data).location_type =
      (List.lookup "location_type" data).elim p.location_type some := by
  unfold updateProfileFields updatableFields
  simp only [List.foldl_cons, List.foldl_nil]
  rw [applyField_location_type_of_ne _ _ _ (show ("conversation_stage" : String) ≠ "location_type" by decide)]
  rw [applyField_location_type_of_ne _ _ _ (show ("selected_business" : String) ≠ "location_type" by decide)]
  rw [applyField_location_type_of_ne _ _ _ (show ("risk_tolerance" : String) ≠ "location_type" by decide)]
  rw [applyField_location_type_of_ne _ _ _ (show ("interests" : String) ≠ "location_type" by decide)]
  rw [applyField_location_type_of_ne _ _ _ (show ("skills" : String) ≠ "location_type" by decide)]
  rw [applyField_location_type_of_ne _ _ _ (show ("time_commitment" : String) ≠ "location_type" by decide)]
  rw [applyField_location_type_self]
  rw [applyField_location_type_of_ne _ _ _ (show ("location_county" : String) ≠ "location_type" by decide)]
  rw [applyField_location_type_of_ne _ _ _ (show ("capital_available" : String) ≠ "location_type" by decide)]

/-- The update loop overwrites `time_commitment` exactly when the field is present. -/
lemma updateFields_time_commitment (p : Profile) (data : List (String × String)) :
    (updateProfileFields p data).time_commitment =
      (List.lookup "time_commitment" data).elim p.time_commitment some := by
  unfold updateProfileFields updatableFields
  simp only [List.foldl_cons, List.foldl_nil]
  rw [applyField_time_commitment_of_ne _ _ _ (show ("conversation_stage" : String) ≠ "time_commitment" by decide)]
  rw [applyField_time_commitment_of_ne _ _ _ (show ("selected_business" : String) ≠ "time_commitment" by decide)]
  rw [applyField_time_commitment_of_ne _ _ _ (show ("risk_tolerance" : String) ≠ "time_commitment" by decide)]
  rw [applyField_time_commitment_of_ne _ _ _ (show ("interests" : String) ≠ "time_commitment" by decide)]
  rw [applyField_time_commitment_of_ne _ _ _ (show ("skills" : String) ≠ "time_commitment" by decide)]
  rw [applyField_time_commitment_self]
  rw [applyField_time_commitment_of_ne _ _ _ (show ("location_type" : String) ≠ "time_commitment" by decide)]
  rw [applyField_time_commitment_of_ne _ _ _ (show ("location_county" : String) ≠ "time_commitment" by decide)]
  rw [applyField_time_commitment_of_ne _ _ _ (show ("capital_available" : String) ≠ "time_commitment" by decide)]

/-- The update loop overwrites `skills` exactly when the field is present. -/
lemma updateFields_skills (p : Profile) (data : List (String × String)) :
    (updateProfileFields p data).skills =
      (List.lookup "skills" data).elim p.skills some := by
  unfold updateProfileFields updatableFields
  simp only [List.foldl_cons, List.foldl_nil]
  rw [applyField_skills_of_ne _ _ _ (show ("conversation_stage" : String) ≠ "skills" by decide)]
  rw [applyField_skills_of_ne _ _ _ (show ("selected_business" : String) ≠ "skills" by decide)]
  rw [applyField_skills_of_ne _ _ _ (show ("risk_tolerance" : String) ≠ "skills" by decide)]
  rw [applyField_skills_of_ne _ _ _ (show ("interests" : String) ≠ "skills" by decide)]
  rw [applyField_skills_self]
  rw [applyField_skills_of_ne _ _ _ (show ("time_commitment" : String) ≠ "skills" by decide)]
  rw [applyField_skills_of_ne _ _ _ (show ("location_type" : String) ≠ "skills" by decide)]
  rw [applyField_skills_of_ne _ _ _ (show ("location_county" : String) ≠ "skills" by decide)]
  rw [applyField_skills_of_ne _ _ _ (show ("capital_available" : String) ≠ "skills" by decide)]

/-- The update loop overwrites `interests` exactly when the field is present. -/
lemma updateFields_interests (p : Profile) (data : List (String × String)) :
    (updateProfileFields p data).interests =
      (List.lookup "interests" data).elim p.interests some := by
  unfold updateProfileFields updatableFields
  simp only [List.foldl_cons, List.foldl_nil]
  rw [applyField_interests_of_ne _ _ _ (show ("conversation_stage" : String) ≠ "interests" by decide)]
  rw [applyField_interests_of_ne _ _ _ (show ("selected_business" : String) ≠ "interests" by decide)]
  rw [applyField_interests_of_ne _ _ _ (show ("risk_tolerance" : String) ≠ "interests" by decide)]
  rw [applyField_interests_self]
  rw [applyField_interests_of_ne _ _ _ (show ("skills" : String) ≠ "interests" by decide)]
  rw [applyField_interests_of_ne _ _ _ (show ("time_commitment" : String) ≠ "interests" by decide)]
  rw [applyField_interests_of_ne _ _ _ (show ("location_type" : String) ≠ "interests" by decide)]
  rw [applyField_interests_of_ne _ _ _ (show ("location_county" : String) ≠ "interests" by decide)]
  rw [applyField_interests_of_ne _ _ _ (show ("capital_available" : String) ≠ "interests" by decide)]

/-- The update loop overwrites `risk_tolerance` exactly when the field is present. -/
lemma updateFields_risk_tolerance (p : Profile) (data : List (String × String)) :
    (updateProfileFields p data).risk_tolerance =
      (List.lookup "risk_tolerance" data).elim p.risk_tolerance some := by
  unfold updateProfileFields updatableFields
  simp only [List.foldl_cons, List.foldl_nil]
  rw [applyField_risk_tolerance_of_ne _ _ _ (show ("conversation_stage" : String) ≠ "risk_tolerance" by decide)]
  rw [applyField_risk_tolerance_of_ne _ _ _ (show ("selected_business" : String) ≠ "risk_tolerance" by decide)]
  rw [applyField_risk_tolerance_self]
  rw [applyField_risk_tolerance_of_ne _ _ _ (show ("interests" : String) ≠ "risk_tolerance" by decide)]
  rw [applyField_risk_tolerance_of_ne _ _ _ (show ("skills" : String) ≠ "risk_tolerance" by decide)]
  rw [applyField_risk_tolerance_of_ne _ _ _ (show ("time_commitment" : String) ≠ "risk_tolerance" by decide)]
  rw [applyField_risk_tolerance_of_ne _ _ _ (show ("location_type" : String) ≠ "risk_tolerance" by decide)]
  rw [applyField_risk_tolerance_of_ne _ _ _ (show ("location_county" : String) ≠ "risk_tolerance" by decide)]
  rw [applyField_risk_tolerance_of_ne _ _ _ (show ("capital_available" : String) ≠ "risk_tolerance" by decide)]

/-- The update loop overwrites `selected_business` exactly when the field is present. -/
lemma updateFields_selected_business (p : Profile) (data : List (String × String)) :
    (updateProfileFields p data).selected_business =
      (List.lookup "selected_business" data).elim p.selected_business some := by
  unfold updateProfileFields updatableFields
  simp only [List.foldl_cons, List.foldl_nil]
  rw [applyField_selected_business_of_ne _ _ _ (show ("conversation_stage" : String) ≠ "selected_business" by decide)]
  rw [applyField_selected_business_self]
  rw [applyField_selected_business_of_ne _ _ _ (show ("risk_tolerance" : String) ≠ "selected_business" by decide)]
  rw [applyField_selected_business_of_ne _ _ _ (show ("interests" : String) ≠ "selected_business" by decide)]
  rw [applyField_selected_business_of_ne _ _ _ (show ("skills" : String) ≠ "selected_business" by decide)]
  rw [applyField_selected_business_of_ne _ _ _ (show ("time_commitment" : String) ≠ "selected_business" by decide)]
  rw [applyField_selected_business_of_ne _ _ _ (show ("location_type" : String) ≠ "selected_business" by decide)]
  rw [applyField_selected_business_of_ne _ _ _ (show ("location_county" : String) ≠ "selected_business" by decide)]
  rw [applyField_selected_business_of_ne _ _ _ (show ("capital_available" : String) ≠ "selected_business" by decide)]

/-- The update loop overwrites `conversation_stage` exactly when the field is present. -/
lemma updateFields_conversation_stage (p : Profile) (data : List (String × String)) :
    (updateProfileFields p data).conversation_stage =
      (List.lookup "conversation_stage" data).elim p.conversation_stage id := by
  unfold updateProfileFields updatableFields
  simp only [List.foldl_cons, List.foldl_nil]
  rw [applyField_conversation_stage_self]
  rw [applyField_conversation_stage_of_ne _ _ _ (show ("selected_business" : String) ≠ "conversation_stage" by decide)]
  rw [applyField_conversation_stage_of_ne _ _ _ (show ("risk_tolerance" : String) ≠ "conversation_stage" by decide)]
  rw [applyField_conversation_stage_of_ne _ _ _ (show ("interests" : String) ≠ "conversation_stage" by decide)]
  rw [applyField_conversation_stage_of_ne _ _ _ (show ("skills" : String) ≠ "conversation_stage" by decide)]
  rw [applyField_conversation_stage_of_ne _ _ _ (show ("time_commitment" : String) ≠ "conversation_stage" by decide)]
  rw [applyField_conversation_stage_of_ne _ _ _ (show ("location_type" : String) ≠ "conversation_stage" by decide)]
  rw [applyField_conversation_stage_of_ne _ _ _ (show ("location_county" : String) ≠ "conversation_stage" by decide)]
  rw [applyField_conversation_stage_of_ne _ _ _ (show ("capital_available" : String) ≠ "conversation_stage" by decide)]

/-- C5: partial-merge semantics of the profile update loop: every
recognized field present in the update overwrites the stored value,
every absent field keeps its prior value; consequently updating
`capital_available` then `skills` leaves both set, and updating
`capital_available` twice keeps the last value. -/
theorem c5_partial_merge :
    (∀ (p : Profile) (data : List (String × String)),
      (updateProfileFields p data).capital_available =
          (List.lookup "capital_available" data).elim p.capital_available some ∧
      (updateProfileFields p data).location_county =
          (List.lookup "location_county" data).elim p.location_county some ∧
      (updateProfileFields p data).location_type =
          (List.lookup "location_type" data).elim p.location_type some ∧
      (updateProfileFields p data).time_commitment =
          (List.lookup "time_commitment" data).elim p.time_commitment some ∧
      (updateProfileFields p data).skills =
          (List.lookup "skills" data).elim p.skills some ∧
      (updateProfileFields p data).interests =
          (List.lookup "interests" data).elim p.interests some ∧
      (updateProfileFields p data).risk_tolerance =
          (List.lookup "risk_tolerance" data).elim p.risk_tolerance some ∧
      (updateProfileFields p data).selected_business =
          (List.lookup "selected_business" data).elim p.selected_business some ∧
      (updateProfileFields p data).conversation_stage =
          (List.lookup "conversation_stage" data).elim p.conversation_stage id) ∧
    (∀ (p : Profile) (x y : String),
      (updateProfileFields (updateProfileFields p [("capital_available", x)])
          [("skills", y)]).capital_available = some x ∧
      (updateProfileFields (updateProfileFields p [("capital_available", x)])
          [("skills", y)]).skills = some y) ∧
    (∀ (p : Profile) (x z : String),
      (updateProfileFields (updateProfileFields p [("capital_available", x)])
          [("capital_available", z)]).capital_available = some z) :=
  ⟨fun p data =>
    ⟨updateFields_capital_available p data, updateFields_location_county p data,
     updateFields_location_type p data, updateFields_time_commitment p data,
     updateFields_skills p data, updateFields_interests p data,
     updateFields_risk_tolerance p data, updateFields_selected_business p data,
     updateFields_conversation_stage p data⟩,
   fun _ _ _ => ⟨rfl, rfl⟩,
   fun _ _ _ => rfl⟩

/-- C3 counterexample: an unrecognized key (`bogus`) is silently ignored
and the call succeeds, and an out-of-enumeration `location_type`
(`mars`) is accepted and stored; no `InvalidFieldError` or
`InvalidEnumError` ever occurs. -/
theorem c3_counterexample :
    update_profile [("s1", defaultProfile)] [("session_id", "s1"), ("bogus", "x")] =
      ([("s1", defaultProfile)], UpdateResult.ok) ∧
    (update_profile [] [("session_id", "s1"), ("location_type", "mars")]).2 =
      UpdateResult.ok ∧
    List.lookup "s1" (update_profile [] [("session_id", "s1"), ("location_type", "mars")]).1 =
      some { defaultProfile with location_type := some "mars" } :=
  ⟨rfl, rfl, rfl⟩

/-- C3: the profile-update endpoint never rejects a request over an
unknown field name or an out-of-enumeration value: whenever a truthy
`session_id` is supplied the call succeeds, with unrecognized keys
ignored and enum-like fields accepting any string. -/
theorem c3_no_field_or_enum_validation (ps : List (String × Profile))
    (data : List (String × String)) (sid : String)
    (h1 : List.lookup "session_id" data = some sid) (h2 : sid ≠ "") :
    (update_profile ps data).2 = UpdateResult.ok := by
  simp [update_profile, h1, h2]

theorem c3_no_field_or_enum_validation_witness :
    (update_profile [] [("session_id", "s1"), ("bogus", "x"), ("location_type", "mars")]).2 =
      UpdateResult.ok :=
  c3_no_field_or_enum_validation [] [("session_id", "s1"), ("bogus", "x"), ("location_type", "mars")]
    "s1" rfl (by decide)

/-- All-whitespace strings strip to the empty string. -/
lemma pyStrip_eq_empty (m : String) (hm : ∀ c ∈ m.data, pyIsSpace c = true) :
    pyStrip m = "" := by
  have h1 : m.data.dropWhile pyIsSpace = [] := List.dropWhile_eq_nil_iff.mpr hm
  unfold pyStrip
  rw [h1]
  rfl

/-- C10: a submit-turn request whose `message` is only whitespace is
rejected with the same 400 client error as a missing message, the store
is left untouched, and the collaborator is never invoked (the outcome is
the same for every `collab`). -/
theorem c10_whitespace_message_rejected (st : AppState) (sys : String)
    (sid : Option String) (m : String) (tU tA : DateTime)
    (collab : List RoleContent → Except String String) (parse : String → Option Dict)
    (hm : ∀ c ∈ m.data, pyIsSpace c = true) :
    submit_turn st sys sid (some m) tU tA collab parse =
      (st, .error (400, "Missing message or session_id")) := by
  have hstrip : pyStrip m = "" := pyStrip_eq_empty m hm
  unfold submit_turn
  cases sid with
  | none => rfl
  | some s => simp [hstrip]

theorem c10_whitespace_message_rejected_witness :
    submit_turn ⟨[], []⟩ "SYSTEM" (some "s1") (some "  ") ⟨2025, 1, 1, 9, 0⟩
        ⟨2025, 1, 1, 9, 0⟩ (fun _ => .ok "ignored") (fun _ => none) =
      (⟨[], []⟩, .error (400, "Missing message or session_id")) :=
  c10_whitespace_message_rejected ⟨[], []⟩ "SYSTEM" (some "s1") "  "
    ⟨2025, 1, 1, 9, 0⟩ ⟨2025, 1, 1, 9, 0⟩ (fun _ => .ok "ignored") (fun _ => none)
    (by decide)

/-- C6: when the collaborator call fails, the catch-all handler surfaces
the failure as a 500 server error and no assistant message is appended:
the messages table gains only the user row for that turn. -/
theorem c6_collaborator_failure_no_assistant_row (st : AppState) (sys s m : String)
    (tU tA : DateTime) (e : String) (parse : String → Option Dict)
    (hm : pyStrip m ≠ "") (hs : s ≠ "") :
    submit_turn st sys (some s) (some m) tU tA (fun _ => .error e) parse =
      (⟨st.messages ++ [⟨s, "user", pyStrip m, none, tU⟩], ensureProfile st.profiles s⟩,
       .error (500, "Failed to process request: " ++ e)) := by
  unfold submit_turn
  simp [hm, hs]

theorem c6_collaborator_failure_no_assistant_row_witness :
    submit_turn ⟨[], []⟩ "SYSTEM" (some "s1") (some "hello") ⟨2025, 1, 1, 9, 0⟩
        ⟨2025, 1, 1, 9, 1⟩ (fun _ => .error "timeout") (fun _ => none) =
      (⟨[⟨"s1", "user", pyStrip "hello", none, ⟨2025, 1, 1, 9, 0⟩⟩],
        [("s1", defaultProfile)]⟩,
       .error (500, "Failed to process request: timeout")) :=
  c6_collaborator_failure_no_assistant_row ⟨[], []⟩ "SYSTEM" "s1" "hello"
    ⟨2025, 1, 1, 9, 0⟩ ⟨2025, 1, 1, 9, 1⟩ "timeout" (fun _ => none)
    (by decide) (by decide)

/-- C7: when the stored rows carry nondecreasing timestamps (as assigned
by `utcnow` at append time), the history query returns exactly the
session's messages in append order, regardless of interleaved appends to
other sessions; an unknown or empty session yields the empty list and
never an error. -/
theorem c7_history_append_order (st : List StoredMsg) (sid : String)
    (h : st.Pairwise msgLe) :
    get_history st sid = st.filter (fun m => m.session_id == sid) ∧
    get_history [] sid = [] := by
  refine ⟨?_, rfl⟩
  have hs : List.Sorted msgLe (st.filter (fun m => m.session_id == sid)) :=
    h.sublist (List.filter_sublist st)
  exact hs.insertionSort_eq

theorem c7_history_append_order_witness :
    List.Pairwise msgLe exMsgs ∧
    (get_history exMsgs "s1" = exMsgs.filter (fun m => m.session_id == "s1") ∧
     get_history [] "s1" = []) :=
  ⟨by decide, c7_history_append_order exMsgs "s1" (by decide)⟩

/-- C8 counterexample: for the default profile, the rendered line for the
unset `selected_business` field reads `None yet`, not the claimed
`Unknown` marker. -/
theorem c8_counterexample :
    (profileLines defaultProfile)[8]? = some "- Selected Business: None yet" ∧
    "- Selected Business: None yet" ≠ "- Selected Business: Unknown" :=
  ⟨rfl, by decide⟩

/-- C8: the profile summary is a fixed eleven-line rendering determined
by the stored fields alone: no field is ever omitted, every unset field
renders an explicit marker, which is `Unknown` for all fields except
`selected_business`, whose marker is `None yet`. -/
theorem c8_profile_summary_shape (p : Profile) :
    (profileLines p).length = 11 ∧
    (p.capital_available = none → (profileLines p)[2]? = some "- Capital: Unknown") ∧
    (p.location_county = none → p.location_type = none →
      (profileLines p)[3]? = some "- Location: Unknown (Unknown)") ∧
    (p.time_commitment = none → (profileLines p)[4]? = some "- Time: Unknown") ∧
    (p.skills = none → (profileLines p)[5]? = some "- Skills: Unknown") ∧
    (p.interests = none → (profileLines p)[6]? = some "- Interests: Unknown") ∧
    (p.risk_tolerance = none → (profileLines p)[7]? = some "- Risk Tolerance: Unknown") ∧
    (p.selected_business = none →
      (profileLines p)[8]? = some "- Selected Business: None yet") ∧
    (profileLines p)[9]? = some ("- Conversation Stage: " ++ p.conversation_stage) := by
  refine ⟨rfl, ?_, ?_, ?_, ?_, ?_, ?_, ?_, rfl⟩
  all_goals intros
  all_goals simp_all [profileLines, orUnknown, orNoneYet]

theorem c8_profile_summary_shape_witness :
    (profileLines defaultProfile).length = 11 ∧
    (profileLines defaultProfile)[2]? = some "- Capital: Unknown" ∧
    (profileLines defaultProfile)[3]? = some "- Location: Unknown (Unknown)" ∧
    (profileLines defaultProfile)[8]? = some "- Selected Business: None yet" :=
  ⟨(c8_profile_summary_shape defaultProfile).1,
   (c8_profile_summary_shape defaultProfile).2.1 rfl,
   (c8_profile_summary_shape defaultProfile).2.2.1 rfl rfl,
   (c8_profile_summary_shape defaultProfile).2.2.2.2.2.2.2.1 rfl⟩

set_option maxRecDepth 4000 in
/-- C9 counterexample: exporting the same stored state at two different
instants produces two different text blocks, because the header embeds
the invocation time. -/
theorem c9_counterexample :
    export_session exMsgs [] (some "s1") ⟨2025, 1, 1, 10, 0⟩ ≠
      export_session exMsgs [] (some "s1") ⟨2025, 1, 1, 10, 1⟩ := by
  intro h
  exact absurd (Except.ok.inj h) (by decide)

/-- C9: the export is deterministic given the stored state and the
invocation instant, and the invocation time enters only through line 3,
the `Generated:` header line; all other lines depend on the stored state
alone. -/
theorem c9_export_only_generated_line_varies (history : List StoredMsg)
    (prof : Option Profile) (t1 t2 : DateTime) :
    (exportLines history prof t1).take 3 = (exportLines history prof t2).take 3 ∧
    (exportLines history prof t1).drop 4 = (exportLines history prof t2).drop 4 ∧
    (exportLines history prof t1)[3]? =
      some ("Generated: " ++ t1.fmtYMDHM ++ " UTC") :=
  ⟨rfl, rfl, rfl⟩
